import Mathlib

/-
Verification of the `no-unnecessary-type-arguments` analysis
(typescript-eslint).  The rule implementation itself is not part of the
shown sources; only its test corpus (`src/unnamed/part_000`) is.  The
definitions below are therefore a shallow embedding modelled from the
specification (spec.md sections 3, 4.1-4.7), and, where the test corpus
pins down behaviour the specification mispredicts, a second clearly
named `...Impl` definition modelled from the test corpus is given and
compared against the spec-modelled one.

Type expressions are encoded as application spines: a written reference
`F<a, b>` is `app (app (base F) a) b`, so `Map<string, string>` is
`app (app (base mapId) (base stringId)) (base stringId)`.  Declarations
are keyed by identity (a natural number), never by name, matching the
spec's design note that alias resolution is keyed "by declaration
identity (arena index), not by name".
-/

/-- A syntactic type expression as written at a site (spec section 3,
`TypeExpr`): a reference to a declaration by identity (`base`), a
reference to a type parameter in scope (`tvar`), or the supply of one
more explicit type argument (`app`). -/
inductive TypeExpr where
  | tvar (id : Nat)
  | base (id : Nat)
  | app (fn : TypeExpr) (arg : TypeExpr)
deriving DecidableEq

/-- A canonical alias-free structural form (spec section 3,
`ResolvedType`'s structural payload): shapes built from structural
constructors and rigid type variables. -/
inductive STy where
  | svar (id : Nat)
  | sbase (id : Nat)
  | sapp (fn : STy) (arg : STy)
deriving DecidableEq

/-- Result of resolution (spec section 9 design note: tagged variant
`Structural | Opaque | Unresolvable`; the opaque case covers targets
typed `any` or `unknown`). -/
inductive ResolvedType where
  | structural (t : STy)
  | anyOrUnknown
  | unresolvable
deriving DecidableEq

/-- What a declaration identity denotes in the environment: a non-alias
structural constructor (such as `Map`, `number`, `string`, or a written
object type), a type-alias declaration with its parameter identities and
right-hand-side body, a target typed `any`/`unknown`, or a missing
(unresolved) symbol such as an import from a missing module. -/
inductive Decl where
  | structuralCtor
  | aliasDecl (params : List Nat) (body : TypeExpr)
  | anyOrUnknownDecl
  | missing
deriving DecidableEq

/-- The declaration environment, keyed by declaration identity. -/
def Env : Type := List (Nat × Decl)

/-- Look a declaration identity up; identities absent from the
environment are unresolved symbols. -/
def lookupDecl (env : Env) (id : Nat) : Decl :=
  (env.lookup id).getD .missing

/-- Head of an application spine: for `F<a, b>` the written reference `F`. -/
def spineHead : TypeExpr → TypeExpr
  | .app f _ => spineHead f
  | .tvar id => .tvar id
  | .base id => .base id

/-- Arguments of an application spine, leftmost first: for `F<a, b>`
the list `[a, b]`. -/
def spineArgs : TypeExpr → List TypeExpr
  | .app f a => spineArgs f ++ [a]
  | _ => []

/-- Substitution of type-parameter identities by type expressions,
used when entering an instantiated generic alias (spec 4.1:
"substituting the alias's own type-argument bindings ... before the
recursive step").  Parameters without a binding stay rigid. -/
def substTE (s : List (Nat × TypeExpr)) : TypeExpr → TypeExpr
  | .tvar id => (s.lookup id).getD (.tvar id)
  | .base id => .base id
  | .app f a => .app (substTE s f) (substTE s a)

/-- Collect a list of resolutions into structural forms, if all of them
are structural. -/
def allStructural : List ResolvedType → Option (List STy)
  | [] => some []
  | .structural t :: rest => (allStructural rest).map (t :: ·)
  | _ :: _ => none

/-- Whether some resolution in the list is the unresolvable sentinel. -/
def anyUnresolvable : List ResolvedType → Bool
  | [] => false
  | .unresolvable :: _ => true
  | _ :: rest => anyUnresolvable rest

/-- Rebuild a structural application spine from a head and arguments. -/
def mkSApp : STy → List STy → STy
  | f, [] => f
  | f, a :: as => mkSApp (.sapp f a) as

/-- Modelled from the spec (4.1 Type Resolver): canonicalize a written
type expression by repeatedly unfolding alias references (substituting
their instantiating arguments), stopping with the `anyOrUnknown`
sentinel on targets typed `any`/`unknown` and with `unresolvable` on
missing symbols or on a repeated alias on the current path (cycle
safety via the `visited` set of declaration identities).  The rule
implementation is absent from the shown sources, so this is the spec's
resolver; `fuel` bounds the unfolding depth and is chosen large enough
at every concrete use. -/
def resolve (env : Env) : Nat → List Nat → TypeExpr → ResolvedType
  | 0, _, _ => .unresolvable
  | fuel + 1, visited, e =>
    match spineHead e with
    | .tvar id =>
      if spineArgs e = [] then .structural (.svar id) else .unresolvable
    | .base id =>
      match lookupDecl env id with
      | .structuralCtor =>
        let rs := (spineArgs e).map (resolve env fuel visited)
        match allStructural rs with
        | some ts => .structural (mkSApp (.sbase id) ts)
        | none => if anyUnresolvable rs then .unresolvable else .anyOrUnknown
      | .aliasDecl params body =>
        if visited.contains id then .unresolvable
        else resolve env fuel (id :: visited) (substTE (params.zip (spineArgs e)) body)
      | .anyOrUnknownDecl => .anyOrUnknown
      | .missing => .unresolvable
    | .app _ _ => .unresolvable

/-- Modelled from the spec (4.3 Equivalence Comparator): true iff both
sides resolve to concrete structural forms and those forms are
identical; false whenever either side is the unresolvable sentinel or
`any`/`unknown`. -/
def equivalent (env : Env) (fuel : Nat) (a b : TypeExpr) : Bool :=
  match resolve env fuel [] a, resolve env fuel [] b with
  | .structural ta, .structural tb => decide (ta = tb)
  | _, _ => false

/-- Modelled from the test corpus (src/unnamed/part_000 lines 130-134
and 287-305): the host checker interns one error type per written
unresolved reference, so two sides that both fail to resolve compare
equal exactly when they are the same written expression; this is where
the implementation observably differs from the spec's comparator
`equivalent`, which returns false for every unresolvable side. -/
def equivalentImpl (env : Env) (fuel : Nat) (a b : TypeExpr) : Bool :=
  match resolve env fuel [] a, resolve env fuel [] b with
  | .structural ta, .structural tb => decide (ta = tb)
  | .unresolvable, .unresolvable => decide (a = b)
  | _, _ => false

/-- A source span, start inclusive, stop exclusive, in character offsets. -/
structure Span where
  start : Nat
  stop : Nat
deriving DecidableEq

/-- Spec section 3: `TypeParameterDeclaration`, one declared type
parameter with its optional default type expression (positions are the
indices of the owning list). -/
structure TypeParameterDeclaration where
  name : String
  default : Option TypeExpr
deriving DecidableEq

/-- Spec section 3: a generic declaration owns an ordered sequence of
type parameters. -/
structure GenericDeclaration where
  typeParameters : List TypeParameterDeclaration
deriving DecidableEq

/-- Spec section 3: `GenericSite`, one instantiation site: the target
declaration, the supplied type arguments in order, the span of the
whole `<...>` list (brackets inclusive), and one span per supplied
argument. -/
structure GenericSite where
  declaration : GenericDeclaration
  suppliedArgs : List TypeExpr
  bracketRange : Span
  argRanges : List Span
deriving DecidableEq

/-- Modelled from the spec (4.2 Default Extractor): the ordered list of
per-position declared defaults, `none` where absent; a pure lookup. -/
def defaultsOf (decl : GenericDeclaration) : List (Option TypeExpr) :=
  decl.typeParameters.map (·.default)

/-- Whether the right-to-left scan stops at a position carrying this
(argument, default) pair: it stops when the default is absent or the
supplied argument is not equivalent to it (spec 4.5). -/
def blocksRemoval (equiv : TypeExpr → TypeExpr → Bool)
    (p : TypeExpr × Option TypeExpr) : Bool :=
  match p.2 with
  | none => true
  | some d => !equiv p.1 d

/-- Length of the removable run when scanning the given (argument,
default) pairs in scan order (the input list is the site's pair list
reversed, so its head is the rightmost position): count positions until
the first one that blocks removal (spec 4.5). -/
def removableCount (equiv : TypeExpr → TypeExpr → Bool) :
    List (TypeExpr × Option TypeExpr) → Nat
  | [] => 0
  | p :: rest =>
    if blocksRemoval equiv p then 0 else removableCount equiv rest + 1

/-- Modelled from the spec (4.5 Trailing-Redundancy Scanner): scan the
positions from `suppliedArgs.length - 1` down to `0`, stopping at the
first position whose default is absent or whose argument is not
equivalent to its default; `cutPoint` is the first index from the left
that must be retained, every position at or beyond it being removable. -/
def cutPoint (equiv : TypeExpr → TypeExpr → Bool)
    (defaults : List (Option TypeExpr)) (args : List TypeExpr) : Nat :=
  args.length - removableCount equiv ((args.zip defaults).reverse)

/-- One text edit that deletes the character range
start inclusive, stop exclusive. -/
structure FixEdit where
  delStart : Nat
  delStop : Nat
deriving DecidableEq

/-- Modelled from the spec (4.6 Fixer, verbatim reading): delete the
entire `bracketRange` when `cutPoint == 0`, otherwise delete from the
end of `argRanges[cutPoint - 1]` through the end of `bracketRange`. -/
def fixOfSpec (site : GenericSite) (cut : Nat) : FixEdit :=
  if cut = 0 then ⟨site.bracketRange.start, site.bracketRange.stop⟩
  else ⟨(site.argRanges.getD (cut - 1) ⟨0, 0⟩).stop, site.bracketRange.stop⟩

/-- Modelled from the test corpus (src/unnamed/part_000 lines 166-181:
fixing `g<string, string>()` yields `g<string>()`, the closing bracket
kept): delete the entire `bracketRange` when `cutPoint == 0`, otherwise
delete from the end of `argRanges[cutPoint - 1]` through the end of the
last supplied argument's range, leaving the closing bracket in place —
unlike `fixOfSpec`, whose deletion runs through the end of
`bracketRange` and so would also delete the closing bracket. -/
def fixOfImpl (site : GenericSite) (cut : Nat) : FixEdit :=
  if cut = 0 then ⟨site.bracketRange.start, site.bracketRange.stop⟩
  else ⟨(site.argRanges.getD (cut - 1) ⟨0, 0⟩).stop,
        (site.argRanges.getD (site.suppliedArgs.length - 1) ⟨0, 0⟩).stop⟩

/-- One emitted finding: the point location where it is reported and
its attached fix (spec 4.7). -/
structure Finding where
  locationStart : Nat
  fix : FixEdit
deriving DecidableEq

/-- The scanner's cut point for a whole site, comparing each supplied
argument against the default extracted from the site's own declaration. -/
def siteCut (equiv : TypeExpr → TypeExpr → Bool) (site : GenericSite) : Nat :=
  cutPoint equiv (defaultsOf site.declaration) site.suppliedArgs

/-- Modelled from the spec (4.7 Diagnostic Reporter, verbatim reading):
one finding per site with `cutPoint < suppliedArgs.length`, located at
the start of `suppliedArgs[cutPoint]`'s range, or, if `cutPoint == 0`,
at the start of `bracketRange`; no finding otherwise. -/
def reportSpec (equiv : TypeExpr → TypeExpr → Bool) (site : GenericSite) :
    List Finding :=
  let cut := siteCut equiv site
  if cut < site.suppliedArgs.length then
    [⟨if cut = 0 then site.bracketRange.start
      else (site.argRanges.getD cut ⟨0, 0⟩).start,
      fixOfSpec site cut⟩]
  else []

/-- Modelled from the test corpus (src/unnamed/part_000: the expected
report column is always the column of the first removable argument,
for example column 3 for `f<number>();` at lines 150-165, column 11 for
`g<string, string>();` at lines 166-181): one finding per site with
`cutPoint < suppliedArgs.length`, located at the start of
`suppliedArgs[cutPoint]`'s range in every case, `cutPoint == 0`
included, with the fix of `fixOfImpl`. -/
def reportImpl (equiv : TypeExpr → TypeExpr → Bool) (site : GenericSite) :
    List Finding :=
  let cut := siteCut equiv site
  if cut < site.suppliedArgs.length then
    [⟨(site.argRanges.getD cut ⟨0, 0⟩).start, fixOfImpl site cut⟩]
  else []

/-- Apply a deleting text edit to a source text. -/
def applyFix (src : List Char) (f : FixEdit) : List Char :=
  src.take f.delStart ++ src.drop f.delStop

/-- Outcome of resolving the callee / constructed class / heritage base
/ referenced symbol at a candidate site through the host collaborator
(spec 4.4): either exactly one generic declaration, or one of the
skip cases. -/
inductive SymbolResolution where
  | unique (d : GenericDeclaration)
  | overloaded
  | anyTyped
  | unknownTyped
  | unresolvedSym
deriving DecidableEq

/-- Modelled from the spec (4.4 Generic-Site Locator): a `GenericSite`
is extracted only when the symbol resolves to exactly one generic
declaration; every other resolution outcome skips the site. -/
def locateSite (r : SymbolResolution) (args : List TypeExpr)
    (bracketRange : Span) (argRanges : List Span) : Option GenericSite :=
  match r with
  | .unique d => some ⟨d, args, bracketRange, argRanges⟩
  | _ => none

/-- The per-site pipeline: locate, then scan and report; a site the
locator skips produces no findings. -/
def analyzeSite (equiv : TypeExpr → TypeExpr → Bool) (r : SymbolResolution)
    (args : List TypeExpr) (bracketRange : Span) (argRanges : List Span) :
    List Finding :=
  match locateSite r args bracketRange argRanges with
  | none => []
  | some site => reportImpl equiv site

/-- Declaration identity of the structural constructor `number`. -/
def numberId : Nat := 0

/-- Declaration identity of the structural constructor `string`. -/
def stringId : Nat := 1

/-- Declaration identity of the structural constructor `Map`. -/
def mapId : Nat := 2

/-- The written type `number`. -/
def tNumber : TypeExpr := .base numberId

/-- The written type `string`. -/
def tString : TypeExpr := .base stringId

/-- The written type `Map<a, b>`. -/
def tMap (a b : TypeExpr) : TypeExpr := .app (.app (.base mapId) a) b

/-- The written type `Map<string, string>`. -/
def tMapSS : TypeExpr := tMap tString tString

/-- The written type `Map<string, number>`. -/
def tMapSN : TypeExpr := tMap tString tNumber

/-- The written reference `F` to the symbol imported from the missing
module `./missing` in src/unnamed/part_000 lines 130-134 and 287-305;
identity 30 is deliberately absent from `theEnv`, so it is unresolved. -/
def missingF : TypeExpr := .base 30

/-- The declaration environment covering every scenario of the test
corpus used below, keyed by declaration identity.  Identities 0-4 are
non-alias structural constructors (3 is the written object type
`\x7b foo: string \x7d` of part_000 line 308, 4 the object type
`\x7b somethingElse: true \x7d` of line 312 — distinct shapes).
Identity 10 is `type A = Map<string, string>` (lines 368-371), 11 the
generic alias `type B<T = A> = T`, 20-24 the five-alias chain of lines
405-428 (A, B, C, D, E), 40 the top-level `type DefaultE` of line 308,
41 the shadowing `DefaultE` local to the nested declare module of line
312 (a different declaration identity, per the spec's design note that
resolution is keyed by declaration identity, not name), and 50 a target
typed `any`/`unknown`.  Identity 30 (the missing-module import `F`) is
absent. -/
def theEnv : Env :=
  [(0, .structuralCtor), (1, .structuralCtor), (2, .structuralCtor),
   (3, .structuralCtor), (4, .structuralCtor),
   (10, .aliasDecl [] tMapSS),
   (11, .aliasDecl [100] (.tvar 100)),
   (20, .aliasDecl [] tMapSS), (21, .aliasDecl [] (.base 20)),
   (22, .aliasDecl [] tMapSS), (23, .aliasDecl [] (.base 22)),
   (24, .aliasDecl [101] (.tvar 101)),
   (40, .aliasDecl [] (.base 3)), (41, .aliasDecl [] (.base 4)),
   (50, .anyOrUnknownDecl)]

/-- The program's comparator over `theEnv` with ample fuel. -/
def equivD : TypeExpr → TypeExpr → Bool := equivalentImpl theEnv 10

/-- `function f<T = number>() \x7b\x7d` (part_000 lines 151-152). -/
def declF : GenericDeclaration := ⟨[⟨"T", some tNumber⟩]⟩

/-- `function g<T = number, U = string>() \x7b\x7d` (lines 57, 168). -/
def declG : GenericDeclaration := ⟨[⟨"T", some tNumber⟩, ⟨"U", some tString⟩]⟩

/-- `class Foo<T> \x7b\x7d` — a single parameter with no default
(lines 109-110). -/
def declFooNoDefault : GenericDeclaration := ⟨[⟨"T", none⟩]⟩

/-- The site `f<number>();` of the invalid test at lines 150-165:
character offsets within that line are `f` 0, `<` 1, `number` 2-7,
`>` 8, so the argument spans 2-8 and the brackets 1-9. -/
def siteF : GenericSite := ⟨declF, [tNumber], ⟨1, 9⟩, [⟨2, 8⟩]⟩

/-- Its source line. -/
def srcF : List Char := "f<number>();".toList

/-- The site `g<string, string>();` of the invalid test at lines
166-181: `g` 0, `<` 1, first `string` 2-7, `,` 8, second `string`
10-15, `>` 16. -/
def siteG2 : GenericSite := ⟨declG, [tString, tString], ⟨1, 17⟩, [⟨2, 8⟩, ⟨10, 16⟩]⟩

/-- Its source line. -/
def srcG2 : List Char := "g<string, string>();".toList

/-- The site `g<number, number>();` of the valid test at lines 56-59
(same shape as `siteG2`). -/
def siteG1 : GenericSite := ⟨declG, [tNumber, tNumber], ⟨1, 17⟩, [⟨2, 8⟩, ⟨10, 16⟩]⟩

/-- The site `new Foo<number>();` of the valid test at lines 109-112:
`<` at offset 7, `number` 8-13, `>` 14. -/
def siteFooNum : GenericSite := ⟨declFooNoDefault, [tNumber], ⟨7, 15⟩, [⟨8, 14⟩]⟩

/-- Declaration of the generic alias `type B<T = A> = T` (lines
369-370), whose default references alias A (identity 10). -/
def declB : GenericDeclaration := ⟨[⟨"T", some (.base 10)⟩]⟩

/-- The site `type C = B<Map<string, string>>;` of the invalid test at
lines 367-384: `<` at offset 10, the argument at 11-30, `>` 30. -/
def siteB_SS : GenericSite := ⟨declB, [tMapSS], ⟨10, 31⟩, [⟨11, 30⟩]⟩

/-- The site `type C2 = B<Map<string, number>>;` of the valid test at
lines 143-147. -/
def siteB_SN : GenericSite := ⟨declB, [tMapSN], ⟨11, 32⟩, [⟨12, 31⟩]⟩

/-- Declaration of `type E<T = B> = T` of the five-alias chain (line
411), default referencing alias B (identity 21). -/
def declE : GenericDeclaration := ⟨[⟨"T", some (.base 21)⟩]⟩

/-- The site `type F = E<D>;` of the invalid test at lines 405-428:
`<` at 10, `D` at 11, `>` at 12. -/
def siteE_D : GenericSite := ⟨declE, [.base 23], ⟨10, 13⟩, [⟨11, 12⟩]⟩

/-- `function bar<T = F<string>>() \x7b\x7d` (line 290), the default
being the written `F<string>` over the unresolved import. -/
def declBar287 : GenericDeclaration := ⟨[⟨"T", some (.app missingF tString)⟩]⟩

/-- The site `bar<F<string>>();` of the invalid test at lines 287-305:
`<` at 3, `F<string>` at 4-12, inner then outer `>` at 12-13. -/
def site287 : GenericSite := ⟨declBar287, [.app missingF tString], ⟨3, 14⟩, [⟨4, 13⟩]⟩

/-- `function bar<T = F>() \x7b\x7d` (line 132), default the bare
unresolved `F`. -/
def declBar130 : GenericDeclaration := ⟨[⟨"T", some missingF⟩]⟩

/-- The site `bar<F<number>>();` of the valid test at lines 130-134. -/
def site130 : GenericSite := ⟨declBar130, [.app missingF tNumber], ⟨3, 14⟩, [⟨4, 13⟩]⟩

/-- Declaration of `type T<E = DefaultE> = \x7b box: E \x7d` (line
309); the default references the top-level `DefaultE` (identity 40). -/
def declT : GenericDeclaration := ⟨[⟨"E", some (.base 40)⟩]⟩

/-- The site `type G = T<DefaultE>;` at top level (line 310 of the
invalid test at lines 306-332): the argument references the top-level
`DefaultE` declaration (identity 40); `<` at 10, argument 11-18, `>`
19. -/
def siteShadowTop : GenericSite := ⟨declT, [.base 40], ⟨10, 20⟩, [⟨11, 19⟩]⟩

/-- The site `type G = T<DefaultE>;` inside `declare module 'bar'`
(line 313): the same written text, but its argument resolves through
its own lexical scope to the module-local `DefaultE` declaration
(identity 41). -/
def siteShadowModule : GenericSite := ⟨declT, [.base 41], ⟨12, 22⟩, [⟨13, 21⟩]⟩

/-- `class Bar<T = number> \x7b\x7d` (line 115). -/
def declBarNum : GenericDeclaration := ⟨[⟨"T", some tNumber⟩]⟩

/-- The heritage site `class Foo<T = number> extends Bar<T> \x7b\x7d`
of the valid test at lines 114-117: the supplied argument is a
reference to Foo's own type parameter `T` (a rigid type variable,
identity 200), not the written type `number`; `<` at 33, `T` at 34. -/
def siteExtendsBarT : GenericSite := ⟨declBarNum, [.tvar 200], ⟨33, 36⟩, [⟨34, 35⟩]⟩

/-- The heritage site `class Foo<T = number> implements Bar<T> \x7b\x7d`
of the valid test at lines 118-121 (interface Bar, same shape). -/
def siteImplementsBarT : GenericSite := ⟨declBarNum, [.tvar 200], ⟨36, 39⟩, [⟨37, 38⟩]⟩

/-- One row of the rule's own test corpus (src/unnamed/part_000):
whether the rule is expected to report at that site, and at which
1-based column of the reported line when it is. -/
structure RuleTestCase where
  expectReported : Bool
  expectedColumn : Option Nat
deriving DecidableEq

/-- Embedded from part_000 lines 155-159: `f<number>();` is invalid,
reported at column 3 with messageId unnecessaryTypeParameter. -/
def testRowF : RuleTestCase := ⟨true, some 3⟩

/-- Embedded from part_000 lines 171-175: `g<string, string>();` is
invalid, reported at column 11. -/
def testRowG2 : RuleTestCase := ⟨true, some 11⟩

/-- Embedded from part_000 lines 293-299: `bar<F<string>>();` with `F`
imported from the missing module './missing' is invalid, reported at
line 4, column 5. -/
def testRowMissingIdentical : RuleTestCase := ⟨true, some 5⟩

/-- Embedded from part_000 lines 130-134: `bar<F<number>>();` against
default `F` (same missing import) is valid — nothing reported. -/
def testRowMissingDiffering : RuleTestCase := ⟨false, none⟩

/-- Embedded from part_000 lines 316-321: the top-level
`type G = T<DefaultE>;` is invalid, reported at line 4, column 12. -/
def testRowShadowTop : RuleTestCase := ⟨true, some 12⟩

/-- Embedded from part_000 line 163: the expected fixer output line for
`f<number>();`. -/
def expectedOutputF : List Char := "f();".toList

/-- Embedded from part_000 line 179: the expected fixer output line for
`g<string, string>();`. -/
def expectedOutputG2 : List Char := "g<string>();".toList

/-- The 1-based column of a 0-based character offset within a line. -/
def columnOfOffset (o : Nat) : Nat := o + 1

/-- Placeholder pair used with `List.getD`. -/
def defaultPair : TypeExpr × Option TypeExpr := (.tvar 0, none)

theorem removableCount_le_length (equiv : TypeExpr → TypeExpr → Bool)
    (l : List (TypeExpr × Option TypeExpr)) :
    removableCount equiv l ≤ l.length := by
  induction l with
  | nil => simp [removableCount]
  | cons p rest ih =>
    by_cases hp : blocksRemoval equiv p = true
    · simp [removableCount, hp]
    · simp only [removableCount, hp, if_false, List.length_cons]
      exact Nat.succ_le_succ ih

theorem removableCount_eq_zero_of_blocks_first
    (equiv : TypeExpr → TypeExpr → Bool)
    (l : List (TypeExpr × Option TypeExpr)) (h0 : 0 < l.length)
    (hb : blocksRemoval equiv (l.getD 0 defaultPair) = true) :
    removableCount equiv l = 0 := by
  cases l with
  | nil => simp at h0
  | cons p rest =>
    simp only [List.getD_cons_zero] at hb
    simp [removableCount, hb]

theorem removableCount_le_of_blocks (equiv : TypeExpr → TypeExpr → Bool)
    (l : List (TypeExpr × Option TypeExpr)) (i : Nat) (hi : i < l.length)
    (hb : blocksRemoval equiv (l.getD i defaultPair) = true) :
    removableCount equiv l ≤ i := by
  induction l generalizing i with
  | nil => simp at hi
  | cons p rest ih =>
    cases i with
    | zero =>
      simp only [List.getD_cons_zero] at hb
      simp [removableCount, hb]
    | succ i' =>
      simp only [List.getD_cons_succ] at hb
      have hi' : i' < rest.length := Nat.lt_of_succ_lt_succ hi
      by_cases hp : blocksRemoval equiv p = true
      · simp [removableCount, hp]
      · simp only [removableCount, hp, if_false]
        exact Nat.succ_le_succ (ih i' hi' hb)

theorem blocks_at_removableCount (equiv : TypeExpr → TypeExpr → Bool)
    (l : List (TypeExpr × Option TypeExpr))
    (h : removableCount equiv l < l.length) :
    blocksRemoval equiv (l.getD (removableCount equiv l) defaultPair) = true := by
  induction l with
  | nil => simp [removableCount] at h
  | cons p rest ih =>
    by_cases hp : blocksRemoval equiv p = true
    · have hr : removableCount equiv (p :: rest) = 0 := by
        simp [removableCount, hp]
      rw [hr, List.getD_cons_zero]
      exact hp
    · have hr : removableCount equiv (p :: rest)
          = removableCount equiv rest + 1 := by
        simp [removableCount, hp]
      rw [hr] at h ⊢
      rw [List.getD_cons_succ]
      simp only [List.length_cons] at h
      exact ih (Nat.lt_of_succ_lt_succ h)

theorem getD_reverse {α : Type} (l : List α) (i : Nat) (hi : i < l.length)
    (d : α) : l.reverse.getD i d = l.getD (l.length - 1 - i) d := by
  have h1 : i < l.reverse.length := by simpa using hi
  have h2 : l.length - 1 - i < l.length := by omega
  rw [List.getD_eq_getElem l.reverse d h1, List.getD_eq_getElem l d h2]
  exact List.getElem_reverse h1

theorem getD_take {α : Type} (l : List α) (n i : Nat)
    (hi : i < (l.take n).length) (d : α) :
    (l.take n).getD i d = l.getD i d := by
  have hi' : i < l.length := by
    simp only [List.length_take] at hi
    omega
  rw [List.getD_eq_getElem _ d hi, List.getD_eq_getElem l d hi']
  exact List.getElem_take l

theorem take_zip_left {α β : Type} (l : List α) (l' : List β) (n : Nat) :
    (l.take n).zip l' = (l.zip l').take n := by
  induction n generalizing l l' with
  | zero => simp
  | succ n ih =>
    cases l with
    | nil => simp
    | cons a l =>
      cases l' with
      | nil => simp
      | cons b l' => simp [ih]

theorem cutPoint_le_length (equiv : TypeExpr → TypeExpr → Bool)
    (ds : List (Option TypeExpr)) (args : List TypeExpr) :
    cutPoint equiv ds args ≤ args.length :=
  Nat.sub_le _ _

/-- The scanner retains every position at or left of a blocking
position: if the (argument, default) pair at index `k` blocks removal
(its default is absent or its argument is not equivalent to it), then
`cutPoint` exceeds `k`. -/
theorem lt_cutPoint_of_blocks (equiv : TypeExpr → TypeExpr → Bool)
    (ds : List (Option TypeExpr)) (args : List TypeExpr) (k : Nat)
    (hk : k < (args.zip ds).length)
    (hb : blocksRemoval equiv ((args.zip ds).getD k defaultPair) = true) :
    k < cutPoint equiv ds args := by
  have hlenps : (args.zip ds).length ≤ args.length := by
    simp only [List.length_zip]
    exact Nat.min_le_left _ _
  have hi : (args.zip ds).length - 1 - k < (args.zip ds).length := by omega
  have hbrev : blocksRemoval equiv
      ((args.zip ds).reverse.getD ((args.zip ds).length - 1 - k) defaultPair)
        = true := by
    rw [getD_reverse (args.zip ds) _ hi]
    have hkk : (args.zip ds).length - 1 - ((args.zip ds).length - 1 - k) = k := by
      omega
    rwa [hkk]
  have hle := removableCount_le_of_blocks equiv (args.zip ds).reverse _
    (by simpa using hi) hbrev
  show k < args.length - removableCount equiv ((args.zip ds).reverse)
  omega

/-- Re-scanning the retained prefix of a site yields a cut point equal
to the prefix's whole length: the scan stops immediately, either
because the prefix is empty or because its last position is the one
that blocked the original scan. -/
theorem cutPoint_take (equiv : TypeExpr → TypeExpr → Bool)
    (ds : List (Option TypeExpr)) (args : List TypeExpr)
    (hlen : args.length ≤ ds.length) :
    cutPoint equiv ds (args.take (cutPoint equiv ds args)) =
      (args.take (cutPoint equiv ds args)).length := by
  have hpslen : (args.zip ds).length = args.length := by
    simp only [List.length_zip]
    exact Nat.min_eq_left hlen
  have hrcle : removableCount equiv (args.zip ds).reverse ≤ (args.zip ds).length := by
    have := removableCount_le_length equiv (args.zip ds).reverse
    simpa using this
  have hcval : cutPoint equiv ds args
      = args.length - removableCount equiv (args.zip ds).reverse := rfl
  by_cases hzero : cutPoint equiv ds args = 0
  · rw [hzero]
    simp [cutPoint, removableCount]
  · have hlt : removableCount equiv (args.zip ds).reverse < (args.zip ds).length := by
      omega
    have hb := blocks_at_removableCount equiv (args.zip ds).reverse
      (by simpa using hlt)
    have hb2 : blocksRemoval equiv
        ((args.zip ds).getD (cutPoint equiv ds args - 1) defaultPair) = true := by
      rw [getD_reverse (args.zip ds) _ hlt] at hb
      have heq : (args.zip ds).length - 1 - removableCount equiv (args.zip ds).reverse
          = cutPoint equiv ds args - 1 := by omega
      rwa [heq] at hb
    have hcle : cutPoint equiv ds args ≤ args.length := Nat.sub_le _ _
    have hlen' : (args.take (cutPoint equiv ds args)).length
        = cutPoint equiv ds args := by
      simp only [List.length_take]
      omega
    rw [hlen']
    show (args.take (cutPoint equiv ds args)).length
        - removableCount equiv (((args.take (cutPoint equiv ds args)).zip ds).reverse)
      = cutPoint equiv ds args
    rw [hlen', take_zip_left]
    have h0 : 0 < ((args.zip ds).take (cutPoint equiv ds args)).length := by
      simp only [List.length_take]
      omega
    have hhead : ((args.zip ds).take (cutPoint equiv ds args)).reverse.getD 0 defaultPair
        = (args.zip ds).getD (cutPoint equiv ds args - 1) defaultPair := by
      rw [getD_reverse _ 0 h0]
      have hlast : ((args.zip ds).take (cutPoint equiv ds args)).length - 1 - 0
          = cutPoint equiv ds args - 1 := by
        simp only [List.length_take]
        omega
      rw [hlast]
      exact getD_take (args.zip ds) _ _ (by simp only [List.length_take]; omega) _
    have hz := removableCount_eq_zero_of_blocks_first equiv
      ((args.zip ds).take (cutPoint equiv ds args)).reverse
      (by simpa using h0) (by rw [hhead]; exact hb2)
    rw [hz]
    omega

/-- The slice of a source text covered by a span. -/
def textSlice (src : List Char) (sp : Span) : List Char :=
  (src.take sp.stop).drop sp.start

/-- A deleting edit leaves every slice that ends at or before the
deletion start unchanged. -/
theorem textSlice_applyFix_of_before (src : List Char) (f : FixEdit)
    (sp : Span) (hstop : sp.stop ≤ f.delStart)
    (hds : f.delStart ≤ src.length) :
    textSlice (applyFix src f) sp = textSlice src sp := by
  unfold textSlice applyFix
  rw [List.take_append_eq_append_take]
  have h1 : (src.take f.delStart).length = f.delStart := by
    simp only [List.length_take]
    omega
  rw [h1]
  have h2 : sp.stop - f.delStart = 0 := by omega
  rw [h2, List.take_zero, List.append_nil, List.take_take,
    Nat.min_eq_left hstop]

/-- The site produced by applying a site's own fix: the retained prefix
of length `cutPoint` of both the supplied arguments and their ranges
(the empty site, with no type-argument list, when `cutPoint = 0`). -/
def refixedSite (equiv : TypeExpr → TypeExpr → Bool)
    (site : GenericSite) : GenericSite :=
  { site with
    suppliedArgs := site.suppliedArgs.take (siteCut equiv site),
    argRanges := site.argRanges.take (siteCut equiv site) }

/-- C1: the Trailing-Redundancy Scanner walks positions from
`suppliedArgs.length - 1` down to `0` and stops at the first position
whose default is absent or whose supplied argument is not equivalent
to it, so every position at or left of a blocking position is retained
(`j < cutPoint` whenever the pair at some position `k ≥ j` blocks
removal); in particular the corpus site `g<number, number>()` against
defaults `<T = number, U = string>` (src/unnamed/part_000 lines 56-59)
and `new Foo<number>()` against a parameter with no default (lines
109-112) yield no finding. -/
theorem C1_trailing_scan_stops_at_first_blocking :
    (∀ (equiv : TypeExpr → TypeExpr → Bool) (ds : List (Option TypeExpr))
        (args : List TypeExpr) (j k : Nat), j ≤ k →
        ∀ hk : k < (args.zip ds).length,
        blocksRemoval equiv ((args.zip ds).getD k defaultPair) = true →
        j < cutPoint equiv ds args)
    ∧ reportImpl equivD siteG1 = []
    ∧ reportImpl equivD siteFooNum = [] := by
  refine ⟨?_, by decide, by decide⟩
  intro equiv ds args j k hjk hk hb
  exact Nat.lt_of_le_of_lt hjk (lt_cutPoint_of_blocks equiv ds args k hk hb)

/-- Witness for C1 at the corpus input `g<number, number>()` against
defaults `<T = number, U = string>`: position 1 blocks (its argument
`number` is not equivalent to the default `string`), so position 0 is
retained even though its argument equals its default. -/
theorem C1_witness :
    0 < cutPoint equivD [some tNumber, some tString] [tNumber, tNumber] :=
  C1_trailing_scan_stops_at_first_blocking.1 equivD
    [some tNumber, some tString] [tNumber, tNumber] 0 1
    (by decide) (by decide) (by decide)

/-- C2 counterexample: the claim says a site whose supplied argument's
type fails to resolve is never reported, but the rule's own test corpus
(src/unnamed/part_000 lines 287-305) marks `bar<F<string>>();` — `F`
imported from the missing module './missing', the written argument
identical to the written default `F<string>` — as reported, with one
unnecessaryTypeParameter finding at column 5; the test-corpus-modelled
reporter reports it there, and only the spec-modelled reporter
(following the claimed comparator) stays silent, contradicting the
corpus. -/
theorem C2_counterexample_unresolvable_reported :
    resolve theEnv 10 [] (.app missingF tString) = .unresolvable
    ∧ testRowMissingIdentical.expectReported = true
    ∧ reportImpl equivD site287 = [⟨4, ⟨3, 14⟩⟩]
    ∧ columnOfOffset 4 = 5
    ∧ testRowMissingIdentical.expectedColumn = some 5
    ∧ reportSpec (equivalent theEnv 10) site287 = [] := by decide

/-- C2 (amended): the comparator modelled from the test corpus returns
false whenever either side resolves to `any`/`unknown`; when both
sides fail to resolve it compares the written expressions (the host
checker interns one error type per written unresolved reference), so
an unresolved-import site is reported exactly when the written
argument equals the written default: `bar<F<string>>()` against
default `F<string>` is reported (part_000 lines 287-305) while
`bar<F<number>>()` against default `F` is not (lines 130-134). -/
theorem C2_unresolved_comparator_behaviour :
    (∀ (env : Env) (fuel : Nat) (a b : TypeExpr),
        resolve env fuel [] a = .anyOrUnknown →
        equivalentImpl env fuel a b = false)
    ∧ (∀ (env : Env) (fuel : Nat) (a b : TypeExpr),
        resolve env fuel [] b = .anyOrUnknown →
        equivalentImpl env fuel a b = false)
    ∧ (∀ (env : Env) (fuel : Nat) (a b : TypeExpr),
        resolve env fuel [] a = .unresolvable →
        resolve env fuel [] b = .unresolvable →
        equivalentImpl env fuel a b = decide (a = b))
    ∧ reportImpl equivD site130 = []
    ∧ reportImpl equivD site287 = [⟨4, ⟨3, 14⟩⟩] := by
  refine ⟨?_, ?_, ?_, by decide, by decide⟩
  · intro env fuel a b ha
    cases hb : resolve env fuel [] b <;> simp [equivalentImpl, ha, hb]
  · intro env fuel a b hb
    cases ha : resolve env fuel [] a <;> simp [equivalentImpl, ha, hb]
  · intro env fuel a b ha hb
    simp [equivalentImpl, ha, hb]

/-- Witness for C2's amended statement: an `any`-resolving side on the
left and on the right each yield false, and two unresolved sides
compare as their written expressions do. -/
theorem C2_witness :
    equivalentImpl theEnv 10 (.base 50) tNumber = false
    ∧ equivalentImpl theEnv 10 tNumber (.base 50) = false
    ∧ equivalentImpl theEnv 10 missingF missingF = decide (missingF = missingF) :=
  ⟨C2_unresolved_comparator_behaviour.1 theEnv 10 _ _ (by decide),
   C2_unresolved_comparator_behaviour.2.1 theEnv 10 _ _ (by decide),
   C2_unresolved_comparator_behaviour.2.2.1 theEnv 10 _ _ (by decide) (by decide)⟩

/-- C3: when every supplied argument is redundant (`cutPoint = 0`) the
emitted fix deletes the entire bracketRange, both angle brackets
included: for every site the cut-0 fix is exactly the bracketRange
deletion, and on the corpus site `f<number>();` (src/unnamed/part_000
lines 150-165, cut point 0) applying the reported fix to the source
line yields the corpus's expected output `f();` — a bare call with no
type-argument list, never `f<>();`. -/
theorem C3_full_clearing_deletes_brackets :
    (∀ site : GenericSite,
        fixOfImpl site 0 = ⟨site.bracketRange.start, site.bracketRange.stop⟩)
    ∧ siteCut equivD siteF = 0
    ∧ reportImpl equivD siteF = [⟨2, ⟨1, 9⟩⟩]
    ∧ applyFix srcF ⟨1, 9⟩ = expectedOutputF
    ∧ expectedOutputF = "f();".toList := by
  refine ⟨?_, by decide, by decide, by decide, by decide⟩
  intro site
  simp [fixOfImpl]

/-- C4 counterexample: for the corpus site `g<string, string>();`
(src/unnamed/part_000 lines 166-181, cut point 1), deleting from the
end of `argRanges[0]` through the end of `bracketRange` — the
mechanism the claim states — also deletes the closing angle bracket
and yields `g<string();`, which is not the corpus's expected fixed
output `g<string>();`: the claimed deletion endpoint and the claimed
outcome are incompatible at this input. -/
theorem C4_counterexample_bracket_end_deletion :
    siteCut equivD siteG2 = 1
    ∧ fixOfSpec siteG2 1 = ⟨8, 17⟩
    ∧ applyFix srcG2 (fixOfSpec siteG2 1) = "g<string();".toList
    ∧ expectedOutputG2 = "g<string>();".toList
    ∧ applyFix srcG2 (fixOfSpec siteG2 1) ≠ expectedOutputG2 := by decide

/-- C4 (amended): when `0 < cutPoint < suppliedArgs.length` the fix
deletes from the end of `argRanges[cutPoint - 1]` through the end of
the last supplied argument's range — not through the end of
`bracketRange`, so the closing bracket is kept; a deleting edit leaves
every source slice ending at or before the deletion start unchanged,
hence every retained argument (whose range ends at or before the
deletion start in a well-formed site) keeps its text and delimiters,
and `g<string, string>();` becomes `g<string>();` exactly as the
corpus expects, the retained `string` slice intact. -/
theorem C4_fix_preserves_retained_prefix :
    (∀ (site : GenericSite) (cut : Nat), 0 < cut →
        fixOfImpl site cut =
          ⟨(site.argRanges.getD (cut - 1) ⟨0, 0⟩).stop,
           (site.argRanges.getD (site.suppliedArgs.length - 1) ⟨0, 0⟩).stop⟩)
    ∧ (∀ (src : List Char) (f : FixEdit) (sp : Span),
        sp.stop ≤ f.delStart → f.delStart ≤ src.length →
        textSlice (applyFix src f) sp = textSlice src sp)
    ∧ reportImpl equivD siteG2 = [⟨10, ⟨8, 16⟩⟩]
    ∧ applyFix srcG2 ⟨8, 16⟩ = expectedOutputG2
    ∧ textSlice srcG2 ⟨2, 8⟩ = "string".toList
    ∧ textSlice (applyFix srcG2 ⟨8, 16⟩) ⟨2, 8⟩ = "string".toList := by
  refine ⟨?_, ?_, by decide, by decide, by decide, by decide⟩
  · intro site cut hcut
    have hne : ¬ cut = 0 := by omega
    simp [fixOfImpl, hne]
  · intro src f sp h1 h2
    exact textSlice_applyFix_of_before src f sp h1 h2

/-- Witness for C4's amended statement at the corpus site
`g<string, string>();` with cut point 1: the fix is the deletion from
offset 8 (end of the first argument) to offset 16 (end of the second),
and the retained first argument's slice is unchanged by it. -/
theorem C4_witness :
    fixOfImpl siteG2 1 = ⟨8, 16⟩
    ∧ textSlice (applyFix srcG2 ⟨8, 16⟩) ⟨2, 8⟩ = textSlice srcG2 ⟨2, 8⟩ := by
  constructor
  · have h := C4_fix_preserves_retained_prefix.1 siteG2 1 (by decide)
    simpa using h
  · exact C4_fix_preserves_retained_prefix.2.1 srcG2 ⟨8, 16⟩ ⟨2, 8⟩
      (by decide) (by decide)

/-- C5: the spec-modelled comparator judges two written type
expressions equal iff both fully alias-eliminate to the same
structural form, through arbitrary-depth alias chains on either side;
on the corpus, `B<Map<string, string>>` where `B`'s default is the
alias `A = Map<string, string>` is flagged (src/unnamed/part_000 lines
367-384), the five-alias chain site `E<D>` — the default `B` and the
argument `D` both resolving through two aliases to
`Map<string, string>` — is flagged (lines 405-428), and
`B<Map<string, number>>` is not flagged (lines 143-147). -/
theorem C5_alias_transparent_equivalence :
    (∀ (env : Env) (fuel : Nat) (a b : TypeExpr),
        equivalent env fuel a b = true ↔
          ∃ t, resolve env fuel [] a = .structural t
            ∧ resolve env fuel [] b = .structural t)
    ∧ (reportImpl equivD siteB_SS).length = 1
    ∧ (reportImpl equivD siteE_D).length = 1
    ∧ reportImpl equivD siteB_SN = [] := by
  refine ⟨?_, by decide, by decide, by decide⟩
  intro env fuel a b
  constructor
  · intro h
    cases ha : resolve env fuel [] a with
    | structural ta =>
      cases hb : resolve env fuel [] b with
      | structural tb =>
        have h2 : decide (ta = tb) = true := by
          simpa [equivalent, ha, hb] using h
        refine ⟨ta, rfl, ?_⟩
        rw [of_decide_eq_true h2]
      | anyOrUnknown => simp [equivalent, ha, hb] at h
      | unresolvable => simp [equivalent, ha, hb] at h
    | anyOrUnknown =>
      cases hb : resolve env fuel [] b <;> simp [equivalent, ha, hb] at h
    | unresolvable =>
      cases hb : resolve env fuel [] b <;> simp [equivalent, ha, hb] at h
  · intro h
    obtain ⟨t, ha, hb⟩ := h
    simp [equivalent, ha, hb]

/-- C6 counterexample: for the corpus site `f<number>();` (cut point
0) the claim places the finding at the start of `bracketRange`
(offset 1, column 2), but the corpus expects the finding at column 3
(src/unnamed/part_000 line 157) — the start of the first supplied
argument's range, where the test-corpus-modelled reporter places it. -/
theorem C6_counterexample_location_at_bracket :
    reportSpec equivD siteF = [⟨1, ⟨1, 9⟩⟩]
    ∧ columnOfOffset 1 = 2
    ∧ testRowF.expectedColumn = some 3
    ∧ (2 : Nat) ≠ 3
    ∧ reportImpl equivD siteF = [⟨2, ⟨1, 9⟩⟩]
    ∧ columnOfOffset 2 = 3 := by decide

/-- C6 (amended): for every site with
`cutPoint < suppliedArgs.length` exactly one finding is emitted, and
its location is the start of `suppliedArgs[cutPoint]`'s range in every
case — including `cutPoint = 0`, where the corpus places the report on
the first argument rather than on the opening bracket — and no finding
is emitted when `cutPoint = suppliedArgs.length`; concretely
`f<number>();` yields one finding at column 3 (matching part_000 line
157) and `g<number, number>();` yields none. -/
theorem C6_one_finding_at_cut_argument :
    (∀ (equiv : TypeExpr → TypeExpr → Bool) (site : GenericSite),
        siteCut equiv site < site.suppliedArgs.length →
        reportImpl equiv site =
          [⟨(site.argRanges.getD (siteCut equiv site) ⟨0, 0⟩).start,
            fixOfImpl site (siteCut equiv site)⟩])
    ∧ (∀ (equiv : TypeExpr → TypeExpr → Bool) (site : GenericSite),
        site.suppliedArgs.length ≤ siteCut equiv site →
        reportImpl equiv site = [])
    ∧ reportImpl equivD siteF = [⟨2, ⟨1, 9⟩⟩]
    ∧ columnOfOffset 2 = 3
    ∧ testRowF.expectedColumn = some 3
    ∧ reportImpl equivD siteG1 = [] := by
  refine ⟨?_, ?_, by decide, by decide, by decide, by decide⟩
  · intro equiv site h
    simp [reportImpl, h]
  · intro equiv site h
    have hn : ¬ siteCut equiv site < site.suppliedArgs.length := by omega
    simp [reportImpl, hn]

/-- Witness for C6's amended statement: the reporting branch at the
corpus site `f<number>();` (one finding, at the cut argument's start)
and the silent branch at `g<number, number>();`. -/
theorem C6_witness :
    reportImpl equivD siteF =
      [⟨(siteF.argRanges.getD (siteCut equivD siteF) ⟨0, 0⟩).start,
        fixOfImpl siteF (siteCut equivD siteF)⟩]
    ∧ reportImpl equivD siteG1 = [] :=
  ⟨C6_one_finding_at_cut_argument.1 equivD siteF (by decide),
   C6_one_finding_at_cut_argument.2.1 equivD siteG1 (by decide)⟩

/-- C7: a site whose callee / constructed class / heritage base /
referenced symbol does not resolve to exactly one generic declaration
— overloaded, `any`-typed, `unknown`-typed, or unresolved — is skipped
entirely: the locator extracts no `GenericSite` and the per-site
pipeline emits no finding and no fix regardless of the supplied
arguments; concretely the corpus's `declare const f: any;
f<string>();` and `declare const f: unknown; f<string>();` sites
(src/unnamed/part_000 lines 44-55) produce nothing. -/
theorem C7_unresolved_target_skipped :
    (∀ (equiv : TypeExpr → TypeExpr → Bool) (r : SymbolResolution)
        (args : List TypeExpr) (br : Span) (ar : List Span),
        (∀ d, r ≠ .unique d) →
        locateSite r args br ar = none ∧ analyzeSite equiv r args br ar = [])
    ∧ analyzeSite equivD .anyTyped [tString] ⟨1, 9⟩ [⟨2, 8⟩] = []
    ∧ analyzeSite equivD .unknownTyped [tString] ⟨1, 9⟩ [⟨2, 8⟩] = []
    ∧ analyzeSite equivD .overloaded [tString] ⟨1, 9⟩ [⟨2, 8⟩] = []
    ∧ analyzeSite equivD .unresolvedSym [tString] ⟨1, 9⟩ [⟨2, 8⟩] = [] := by
  refine ⟨?_, by decide, by decide, by decide, by decide⟩
  intro equiv r args br ar hr
  cases r with
  | unique d => exact absurd rfl (hr d)
  | overloaded => exact ⟨rfl, rfl⟩
  | anyTyped => exact ⟨rfl, rfl⟩
  | unknownTyped => exact ⟨rfl, rfl⟩
  | unresolvedSym => exact ⟨rfl, rfl⟩

/-- Witness for C7 at an `any`-typed target with a concrete argument
list: no site is extracted and nothing is reported. -/
theorem C7_witness :
    locateSite .anyTyped [tNumber] ⟨0, 2⟩ [] = none
    ∧ analyzeSite equivD .anyTyped [tNumber] ⟨0, 2⟩ [] = [] :=
  C7_unresolved_target_skipped.1 equivD .anyTyped [tNumber] ⟨0, 2⟩ []
    (fun d h => SymbolResolution.noConfusion h)

/-- C8: default matching respects lexical scope and declaration
identity, not names: the top-level site `T<DefaultE>` — whose argument
resolves through its own scope to the very declaration (identity 40)
that the default is bound to — is flagged at column 12 exactly as the
corpus expects (src/unnamed/part_000 lines 306-332), while the
same-written site inside the nested `declare module`, whose argument
resolves to the module-local `DefaultE` declaration (identity 41,
body a different object type), is not flagged; the two same-named
declarations resolve to different structural forms. -/
theorem C8_scope_shadowing :
    reportImpl equivD siteShadowTop = [⟨11, ⟨10, 20⟩⟩]
    ∧ columnOfOffset 11 = 12
    ∧ testRowShadowTop.expectedColumn = some 12
    ∧ reportImpl equivD siteShadowModule = []
    ∧ resolve theEnv 10 [] (.base 40) ≠ resolve theEnv 10 [] (.base 41) := by
  decide

/-- C9: the analysis composed with its own fix is idempotent per site:
a site with no supplied arguments never produces a finding, and
re-running the reporter on the fixed site — the site restricted to the
retained prefix of length `cutPoint`, which is the empty list (no
type-argument list at all) when `cutPoint = 0` — produces no finding,
for every comparator and every site whose argument count respects the
arity invariant of spec section 3
(`suppliedArgs.length ≤ typeParameters.length`). -/
theorem C9_fix_idempotent :
    (∀ (equiv : TypeExpr → TypeExpr → Bool) (site : GenericSite),
        site.suppliedArgs = [] → reportImpl equiv site = [])
    ∧ (∀ (equiv : TypeExpr → TypeExpr → Bool) (site : GenericSite),
        site.suppliedArgs.length ≤ (defaultsOf site.declaration).length →
        reportImpl equiv (refixedSite equiv site) = []) := by
  constructor
  · intro equiv site h
    simp [reportImpl, h]
  · intro equiv site hlen
    have hct := cutPoint_take equiv (defaultsOf site.declaration)
      site.suppliedArgs hlen
    have hn : ¬ siteCut equiv (refixedSite equiv site)
        < (refixedSite equiv site).suppliedArgs.length := by
      show ¬ cutPoint equiv (defaultsOf site.declaration)
          (site.suppliedArgs.take (siteCut equiv site))
        < (site.suppliedArgs.take (siteCut equiv site)).length
      rw [show siteCut equiv site
          = cutPoint equiv (defaultsOf site.declaration) site.suppliedArgs
          from rfl, hct]
      omega
    simp [reportImpl, hn]

/-- Witness for C9: re-analyzing the fixed corpus site
`g<string, string>()` (its retained prefix `g<string>`) yields no
finding, and a site with an empty argument list yields none either. -/
theorem C9_witness :
    reportImpl equivD ⟨declG, [], ⟨1, 2⟩, []⟩ = []
    ∧ reportImpl equivD (refixedSite equivD siteG2) = [] :=
  ⟨C9_fix_idempotent.1 equivD ⟨declG, [], ⟨1, 2⟩, []⟩ rfl,
   C9_fix_idempotent.2 equivD siteG2 (by decide)⟩

/-- C10: a supplied type argument that is a reference to a type
parameter of the enclosing declaration resolves to a rigid type
variable, which neither comparator ever equates with a default
resolving to a non-variable structural form — whatever the enclosing
parameter's own default is — so such an argument is never reported:
concretely, `class Foo<T = number> extends Bar<T>` and
`class Foo<T = number> implements Bar<T>` against `Bar<T = number>`
(src/unnamed/part_000 lines 114-121) produce no finding even though
Foo's own default is structurally identical to Bar's. -/
theorem C10_tvar_argument_not_reported :
    (∀ (env : Env) (fuel : Nat) (i : Nat) (d : TypeExpr) (t : STy),
        resolve env fuel [] d = .structural t → (∀ j, t ≠ .svar j) →
        equivalent env fuel (.tvar i) d = false
          ∧ equivalentImpl env fuel (.tvar i) d = false)
    ∧ reportImpl equivD siteExtendsBarT = []
    ∧ reportImpl equivD siteImplementsBarT = [] := by
  refine ⟨?_, by decide, by decide⟩
  intro env fuel i d t hd ht
  cases fuel with
  | zero => simp [resolve] at hd
  | succ n =>
    have htv : resolve env (n + 1) [] (.tvar i) = .structural (.svar i) := by
      simp [resolve, spineHead, spineArgs]
    have hne : decide ((STy.svar i) = t) = false :=
      decide_eq_false (fun hsv => ht i hsv.symm)
    constructor
    · simp [equivalent, htv, hd, hne]
    · simp [equivalentImpl, htv, hd, hne]

/-- Witness for C10: the corpus heritage argument — Foo's own type
parameter `T` (rigid variable 200) — is not equivalent to Bar's
default `number` under either comparator. -/
theorem C10_witness :
    equivalent theEnv 10 (.tvar 200) tNumber = false
    ∧ equivalentImpl theEnv 10 (.tvar 200) tNumber = false :=
  C10_tvar_argument_not_reported.1 theEnv 10 200 tNumber (.sbase numberId)
    (by decide) (fun j hsv => STy.noConfusion hsv)
